import Mathlib

/-
Verification of the task-service repository: a shallow embedding of the
task entity, the postgres store repository, the cache-aside use-case
layer, and the HTTP handlers, with theorems settling the spec claims.

Modelling conventions:
* UUIDs are natural numbers; the zero value stands for uuid.Nil.
* Timestamps are natural-number ticks passed in as parameters (one per
  time.Now() call site).
* Go errors are a small inductive type: package-level errors.New
  sentinels (identified by package and variable name, mirroring Go
  pointer identity of distinct variables), fresh fmt.Errorf errors, and
  wrapping fmt.Errorf with a %w verb.  errorsIs mirrors errors.Is.
* External collaborator responses (the redis cache, the interface-typed
  repositories inside List, the invalidation outcome) are parameters of
  the use-case functions, covering every response the collaborator can
  produce.
* Go slice expressions tasks[lo:hi] are modelled with capacity equal to
  length: the expression panics when hi exceeds the length.  The store
  and cache collections are built by append/json decoding, so any window
  reaching past the capacity (which never exceeds twice the length for
  the sizes used in the counterexamples) panics at runtime as well.
* Each use-case operation also returns the list of collaborator calls it
  performed (its effect trace), so call-count claims are statable.
-/

namespace TaskService

/-- Go error values: errors.New package sentinels, fmt.Errorf fresh
errors, and fmt.Errorf with a %w wrap. -/
inductive GoError : Type
| sentinel (pkg name : String)
| fmtErr (msg : String)
| wrap (msg : String) (inner : GoError)
deriving DecidableEq, Repr

/-- errors.Is: identity against the target, unwrapping %w chains. -/
def errorsIs : GoError → GoError → Bool
| GoError.wrap m inner, target => GoError.wrap m inner == target || errorsIs inner target
| e, target => e == target

/-- var ErrTaskNotFound in package postgres (repo/postgres/task.go). -/
def errTaskNotFoundPostgres : GoError := GoError.sentinel "postgres" "ErrTaskNotFound"

/-- var ErrInvalidUUID in package postgres (repo/postgres/task.go). -/
def errInvalidUUID : GoError := GoError.sentinel "postgres" "ErrInvalidUUID"

/-- var ErrTaskNotFound in package usecase: a distinct variable from the
postgres sentinel even though the message text coincides. -/
def errTaskNotFoundUsecase : GoError := GoError.sentinel "usecase" "ErrTaskNotFound"

/-- A pgx-level constraint-violation error returned by the database
driver when an INSERT/UPDATE violates the tasks-table schema. -/
def pgErrConstraint : GoError := GoError.sentinel "pgx" "ErrConstraint"

/-- entity.Task (internal/entity/tack.go). -/
structure Task : Type where
  id : Nat
  title : String
  description : String
  status : String
  createdAt : Nat
  updatedAt : Nat
deriving DecidableEq, Repr

/-- uuid.Nil, the zero UUID. -/
def uuidNil : Nat := 0

/-- The validStatuses slice inside Task.Validate. -/
def validStatuses : List String := ["todo", "in_progress", "done"]

/-- Task.Validate (internal/entity/tack.go lines 19-35): empty title is
rejected, then status must be a member of validStatuses.  No other
check is performed. -/
def Task.validate (t : Task) : Option GoError :=
  if t.title = "" then
    some (GoError.fmtErr "title cannot be empty")
  else if validStatuses.contains t.status then
    none
  else
    some (GoError.fmtErr "status must be one of: todo, in_progress, done")

/-- Result of a repository or use-case operation (no panics arise on
these paths). -/
inductive RepoRes (α : Type) : Type
| ok (a : α)
| fail (e : GoError)
deriving DecidableEq, Repr

/-- Result of an operation that can also panic (the List pagination
slice). -/
inductive GoResult (α : Type) : Type
| ok (a : α)
| fail (e : GoError)
| panicked (msg : String)
deriving DecidableEq, Repr

/-- Collaborator calls a use-case operation can perform, recorded in
order. -/
inductive Effect : Type
| storeCreate
| storeGet
| storeList
| storeUpdate
| storeDelete
| cacheGet
| cacheSet (ttlSeconds : Nat)
| cacheInvalidate
deriving DecidableEq, Repr

instance : BEq Effect := instBEqOfDecidableEq

/-- The relational store: the rows of the tasks table in insertion
order. -/
structure Store : Type where
  rows : List Task
deriving DecidableEq, Repr

/-- Hexadecimal digit test for the UUID text format. -/
def isHexDigit (c : Char) : Bool :=
  c.isDigit || ('a' ≤ c && c ≤ 'f') || ('A' ≤ c && c ≤ 'F')

/-- Value of a hexadecimal digit. -/
def hexVal (c : Char) : Nat :=
  if c.isDigit then c.toNat - '0'.toNat
  else if 'a' ≤ c && c ≤ 'f' then c.toNat - 'a'.toNat + 10
  else c.toNat - 'A'.toNat + 10

/-- Canonical 8-4-4-4-12 UUID text layout: 36 characters, hyphens at
positions 8, 13, 18 and 23, hexadecimal digits elsewhere. -/
def uuidLayoutOk (cs : List Char) : Bool :=
  cs.length == 36 &&
  (List.range 36).all (fun i =>
    if i == 8 || i == 13 || i == 18 || i == 23 then cs.getD i ' ' == '-'
    else isHexDigit (cs.getD i ' '))

/-- uuid.Parse of the external uuid library, modelled on the canonical
textual form: a well-formed identifier parses to its 128-bit value (as
a Nat), anything else fails.  The all-zero string parses to uuidNil. -/
def parseUUID (s : String) : Option Nat :=
  let cs := s.toList
  if uuidLayoutOk cs then
    some (cs.foldl (fun acc c => if c == '-' then acc else acc * 16 + hexVal c) 0)
  else
    none

/-- TaskRepository.Create (repo/postgres/task.go lines 58-87): inserts
the row using its own time.Now() for both timestamps (the incoming
timestamps are ignored), returning the stored row.  The INSERT fails on
a primary-key collision or a varchar-length violation of the schema
(part_002: title VARCHAR(255), status VARCHAR(50)); the driver error is
wrapped with fmt.Errorf. -/
def repoCreate (now : Nat) (s : Store) (t : Task) : Store × RepoRes Task :=
  if s.rows.any (fun r => r.id == t.id) ∨ t.title.length > 255 ∨ t.status.length > 50 then
    (s, RepoRes.fail (GoError.wrap "failed to create task" pgErrConstraint))
  else
    let stored : Task := { t with createdAt := now, updatedAt := now }
    ({ rows := s.rows ++ [stored] }, RepoRes.ok stored)

/-- TaskRepository.Get (repo/postgres/task.go lines 89-132): parse the
id (ErrInvalidUUID on failure), select the row, ErrTaskNotFound when no
row matches. -/
def repoGet (s : Store) (idStr : String) : RepoRes Task :=
  match parseUUID idStr with
  | none => RepoRes.fail errInvalidUUID
  | some pid =>
    match s.rows.find? (fun r => r.id == pid) with
    | none => RepoRes.fail errTaskNotFoundPostgres
    | some t => RepoRes.ok t

/-- TaskRepository.Update (repo/postgres/task.go lines 180-215): UPDATE
sets title, description, status and updated_at (its own time.Now())
WHERE id matches, RETURNING the full row, so id and created_at come from
the stored row; no matching row yields ErrTaskNotFound; a varchar
violation on the new values yields a wrapped driver error. -/
def repoUpdate (now : Nat) (s : Store) (t : Task) : Store × RepoRes Task :=
  match s.rows.find? (fun r => r.id == t.id) with
  | none => (s, RepoRes.fail errTaskNotFoundPostgres)
  | some old =>
    if t.title.length > 255 ∨ t.status.length > 50 then
      (s, RepoRes.fail (GoError.wrap "failed to update task" pgErrConstraint))
    else
      let stored : Task :=
        { id := old.id, title := t.title, description := t.description,
          status := t.status, createdAt := old.createdAt, updatedAt := now }
      ({ rows := s.rows.map (fun r => if r.id == t.id then stored else r) },
       RepoRes.ok stored)

/-- TaskRepository.Delete (repo/postgres/task.go lines 217-249): parse
the id (ErrInvalidUUID on failure), DELETE WHERE id; zero rows affected
yields ErrTaskNotFound. -/
def repoDelete (s : Store) (idStr : String) : Store × RepoRes Unit :=
  match parseUUID idStr with
  | none => (s, RepoRes.fail errInvalidUUID)
  | some pid =>
    if s.rows.any (fun r => r.id == pid) then
      ({ rows := s.rows.filter (fun r => !(r.id == pid)) }, RepoRes.ok ())
    else
      (s, RepoRes.fail errTaskNotFoundPostgres)

/-- The Go slice expression xs[lo:hi] with capacity equal to length:
panics with an out-of-range error unless lo ≤ hi ≤ length. -/
def goSlice (xs : List Task) (lo hi : Nat) : GoResult (List Task) :=
  if lo ≤ hi ∧ hi ≤ xs.length then
    GoResult.ok ((xs.drop lo).take (hi - lo))
  else
    GoResult.panicked "slice bounds out of range"

/-- TaskUseCaseImpl.Create (part_001 lines 42-68): validate; assign a
fresh id when the id is uuid.Nil; stamp both timestamps with now;
delegate to the store; on success invalidate the cache, logging but
ignoring the invalidation outcome invRes. -/
def ucCreate (ucNow repoNow freshId : Nat) (invRes : Option GoError)
    (s : Store) (task : Task) : Store × RepoRes Task × List Effect :=
  match task.validate with
  | some e => (s, RepoRes.fail e, [])
  | none =>
    let tid := if task.id = uuidNil then freshId else task.id
    let task2 := { task with id := tid, createdAt := ucNow, updatedAt := ucNow }
    match repoCreate repoNow s task2 with
    | (s1, RepoRes.fail e) => (s1, RepoRes.fail e, [Effect.storeCreate])
    | (s1, RepoRes.ok stored) =>
      (s1, RepoRes.ok stored, [Effect.storeCreate, Effect.cacheInvalidate])

/-- TaskUseCaseImpl.Get (part_001 lines 70-78): delegate to the store,
propagating any error unchanged. -/
def ucGet (s : Store) (idStr : String) : RepoRes Task × List Effect :=
  (repoGet s idStr, [Effect.storeGet])

/-- TaskUseCaseImpl.List (part_001 lines 80-110): normalize page and
limit, call Cache.GetTasks; when its error is nil (including the
empty-cache signal of a nil collection) slice the returned collection
with fixed bounds; only on a cache error fall through to Store.List,
best-effort SetTasks with a 5-minute TTL (setRes is only logged), and
slice the fetched collection with the same fixed bounds.  The cache and
store responses are parameters since both are interface calls. -/
def ucList (page limit : Int) (cacheGetRes : RepoRes (List Task))
    (storeListRes : RepoRes (List Task)) (setRes : Option GoError) :
    GoResult (List Task) × List Effect :=
  let p := if page < 1 then 1 else page
  let l := if limit < 1 ∨ limit > 100 then 20 else limit
  let lo := (l * (p - 1)).toNat
  let hi := (l * p).toNat
  match cacheGetRes with
  | RepoRes.ok tasks => (goSlice tasks lo hi, [Effect.cacheGet])
  | RepoRes.fail _ =>
    match storeListRes with
    | RepoRes.fail e => (GoResult.fail e, [Effect.cacheGet, Effect.storeList])
    | RepoRes.ok tasks =>
      (goSlice tasks lo hi,
       [Effect.cacheGet, Effect.storeList, Effect.cacheSet 300])

/-- TaskUseCaseImpl.Update (part_001 lines 112-133): validate; stamp
updatedAt with now; delegate to the store; on success invalidate the
cache, ignoring the invalidation outcome invRes. -/
def ucUpdate (ucNow repoNow : Nat) (invRes : Option GoError)
    (s : Store) (task : Task) : Store × RepoRes Task × List Effect :=
  match task.validate with
  | some e => (s, RepoRes.fail e, [])
  | none =>
    let task1 := { task with updatedAt := ucNow }
    match repoUpdate repoNow s task1 with
    | (s1, RepoRes.fail e) => (s1, RepoRes.fail e, [Effect.storeUpdate])
    | (s1, RepoRes.ok u) =>
      (s1, RepoRes.ok u, [Effect.storeUpdate, Effect.cacheInvalidate])

/-- TaskUseCaseImpl.Delete (part_001 lines 135-149): delegate to the
store; on success invalidate the cache, ignoring the invalidation
outcome invRes. -/
def ucDelete (invRes : Option GoError) (s : Store) (idStr : String) :
    Store × RepoRes Unit × List Effect :=
  match repoDelete s idStr with
  | (s1, RepoRes.fail e) => (s1, RepoRes.fail e, [Effect.storeDelete])
  | (s1, RepoRes.ok _) =>
    (s1, RepoRes.ok (), [Effect.storeDelete, Effect.cacheInvalidate])

/-- Outcome of an HTTP handler: a response with a status code, or a
panic escaping the handler (to be recovered by middleware). -/
inductive HttpOutcome : Type
| response (status : Nat)
| panicking (msg : String)
deriving DecidableEq, Repr

/-- getTaskHandler (app/app.go lines 225-240): map a use-case error to
404 when errors.Is against the usecase ErrTaskNotFound sentinel
succeeds, 500 otherwise; 200 on success. -/
def getTaskHandlerApp (getRes : RepoRes Task) : HttpOutcome :=
  match getRes with
  | RepoRes.ok _ => HttpOutcome.response 200
  | RepoRes.fail e =>
    if errorsIs e errTaskNotFoundUsecase then HttpOutcome.response 404
    else HttpOutcome.response 500

/-- GET /tasks/id end to end through the live wiring: store repository,
use-case Get, app handler. -/
def getTaskEndpointApp (s : Store) (idStr : String) : HttpOutcome :=
  getTaskHandlerApp (ucGet s idStr).1

/-- validateTask (controller/http/task.go lines 232-243): empty title,
title over 255 characters, empty status. -/
def validateTask (t : Task) : Option GoError :=
  if t.title = "" then some (GoError.fmtErr "title is required")
  else if t.title.length > 255 then
    some (GoError.fmtErr "title must be less than 255 characters")
  else if t.status = "" then some (GoError.fmtErr "status is required")
  else none

/-- updateTaskHandler (app/app.go lines 264-287): decode the body (400
on failure), then uuid.MustParse the path id, which panics on a
malformed id; on success overwrite the decoded id with the parsed path
id and call the use-case Update (its result updateRes is a parameter).
Returns the outcome together with the task passed to Update, when
Update was invoked. -/
def updateTaskHandlerApp (idStr : String) (body : Option Task)
    (updateRes : RepoRes Task) : HttpOutcome × Option Task :=
  match body with
  | none => (HttpOutcome.response 400, none)
  | some task =>
    match parseUUID idStr with
    | none => (HttpOutcome.panicking "uuid: Parse: invalid UUID format", none)
    | some pid =>
      let task1 := { task with id := pid }
      match updateRes with
      | RepoRes.ok _ => (HttpOutcome.response 200, some task1)
      | RepoRes.fail e =>
        (if errorsIs e errTaskNotFoundUsecase then HttpOutcome.response 404
         else HttpOutcome.response 500, some task1)

/-- TaskHandler.UpdateTask (controller/http/task.go lines 160-196):
parse the path id first (400 on failure), decode the body (400 on
failure), overwrite the decoded id with the parsed path id, run
validateTask (422 on failure), then call the use-case Update.  Returns
the outcome together with the task passed to Update, when Update was
invoked. -/
def updateTaskHandlerCtrl (idStr : String) (body : Option Task)
    (updateRes : RepoRes Task) : HttpOutcome × Option Task :=
  match parseUUID idStr with
  | none => (HttpOutcome.response 400, none)
  | some pid =>
    match body with
    | none => (HttpOutcome.response 400, none)
    | some task =>
      let task1 := { task with id := pid }
      match validateTask task1 with
      | some _ => (HttpOutcome.response 422, none)
      | none =>
        match updateRes with
        | RepoRes.ok _ => (HttpOutcome.response 200, some task1)
        | RepoRes.fail e =>
          (if errorsIs e errTaskNotFoundUsecase then HttpOutcome.response 404
           else HttpOutcome.response 500, some task1)

/-- A sample in-bounds task used by concrete evaluations. -/
def sampleTask : Task :=
  { id := 7, title := "write spec", description := "", status := "todo",
    createdAt := 0, updatedAt := 0 }

/-- A task whose title has 256 characters and whose other fields pass
Task.Validate. -/
def longTitleTask : Task :=
  { sampleTask with title := String.mk (List.replicate 256 'a') }

/-- The stored row used by the C6 witness. -/
def sampleRow : Task := { sampleTask with id := 3 }

/-- The update request used by the C6 witness. -/
def sampleEdit : Task := { sampleTask with id := 3, title := "new title" }

lemma status_mem_of_validate (t : Task) (hv : t.validate = none) :
    t.status = "todo" ∨ t.status = "in_progress" ∨ t.status = "done" := by
  unfold Task.validate at hv
  by_cases ht : t.title = ""
  · simp [ht] at hv
  · simp [ht] at hv
    simpa [validStatuses] using hv

lemma status_len_of_validate (t : Task) (hv : t.validate = none) :
    t.status.length ≤ 50 := by
  rcases status_mem_of_validate t hv with h | h | h <;> rw [h] <;> decide

lemma title_ne_of_validate (t : Task) (hv : t.validate = none) :
    ¬ t.title = "" := by
  intro ht
  unfold Task.validate at hv
  simp [ht] at hv

/-- The successful path of ucCreate, spelled out. -/
lemma ucCreate_success_eq (ucNow repoNow freshId : Nat) (inv : Option GoError)
    (s : Store) (t : Task) (hv : t.validate = none) (hlen : t.title.length ≤ 255)
    (hfresh : s.rows.any
      (fun r => r.id == (if t.id = uuidNil then freshId else t.id)) = false) :
    ucCreate ucNow repoNow freshId inv s t =
      ({ rows := s.rows ++
          [{ t with
              id := (if t.id = uuidNil then freshId else t.id),
              createdAt := repoNow,
              updatedAt := repoNow }] },
       RepoRes.ok
         { t with
            id := (if t.id = uuidNil then freshId else t.id),
            createdAt := repoNow,
            updatedAt := repoNow },
       [Effect.storeCreate, Effect.cacheInvalidate]) := by
  have hstat : t.status.length ≤ 50 := status_len_of_validate t hv
  unfold ucCreate repoCreate
  rw [hv]
  simp only [hfresh]
  rw [if_neg (by simp; omega)]

/-- The successful path of ucUpdate, spelled out. -/
lemma ucUpdate_success_eq (ucNow repoNow : Nat) (inv : Option GoError)
    (s : Store) (t old : Task) (hv : t.validate = none)
    (hlen : t.title.length ≤ 255)
    (hfind : s.rows.find? (fun r => r.id == t.id) = some old) :
    ucUpdate ucNow repoNow inv s t =
      ({ rows := s.rows.map (fun r =>
          if r.id == t.id then
            { id := old.id, title := t.title, description := t.description,
              status := t.status, createdAt := old.createdAt, updatedAt := repoNow }
          else r) },
       RepoRes.ok { id := old.id, title := t.title, description := t.description,
                    status := t.status, createdAt := old.createdAt,
                    updatedAt := repoNow },
       [Effect.storeUpdate, Effect.cacheInvalidate]) := by
  have hstat : t.status.length ≤ 50 := status_len_of_validate t hv
  unfold ucUpdate repoUpdate
  rw [hv]
  simp only [hfind]
  rw [if_neg (by omega)]

/-- The successful path of ucDelete, spelled out. -/
lemma ucDelete_success_eq (inv : Option GoError) (s : Store) (idStr : String)
    (pid : Nat) (hp : parseUUID idStr = some pid)
    (hex : s.rows.any (fun r => r.id == pid) = true) :
    ucDelete inv s idStr =
      ({ rows := s.rows.filter (fun r => !(r.id == pid)) },
       RepoRes.ok (), [Effect.storeDelete, Effect.cacheInvalidate]) := by
  unfold ucDelete repoDelete
  rw [hp]
  simp only [hex]
  rfl

/-- C1: the claim states that List clamps the page window to the
collection bounds, returning all five items for a five-item collection
with limit 20 page 1, and an empty sequence for page 2.  The code
instead slices with the fixed bounds limit*(page-1) and limit*page and
panics in both situations; the only collaborator call made is the cache
read. -/
theorem c1_list_slices_without_clamping :
    ucList 1 20 (RepoRes.ok (List.replicate 5 sampleTask)) (RepoRes.ok []) none
      = (GoResult.panicked "slice bounds out of range", [Effect.cacheGet]) ∧
    ucList 2 20 (RepoRes.ok (List.replicate 5 sampleTask)) (RepoRes.ok []) none
      = (GoResult.panicked "slice bounds out of range", [Effect.cacheGet]) := by
  constructor <;> rfl

/-- C2: the claim states that on the cache-empty signal (a nil
collection with a nil error) List falls through to Store.List and
refills the cache.  The code only checks the error, so the empty-cache
signal is treated as a hit: it slices the nil collection, panics, and
never performs the store read or the cache refill, even though the
store holds a task. -/
theorem c2_cache_empty_signal_not_fallthrough :
    ucList 1 20 (RepoRes.ok []) (RepoRes.ok [sampleTask]) none
      = (GoResult.panicked "slice bounds out of range", [Effect.cacheGet]) := by
  rfl

set_option maxRecDepth 8192 in
/-- C4: the claim states that a title longer than 255 characters is
rejected with a validation error before any store mutation.  For a task
with a 256-character title, Task.Validate accepts it, Create goes on to
invoke Store.Create, and the failure that comes back is the wrapped
driver constraint error, not a validation error. -/
theorem c4_long_title_reaches_store :
    Task.validate longTitleTask = none ∧
    (ucCreate 1 1 9 none { rows := [] } longTitleTask).2.2 = [Effect.storeCreate] ∧
    (ucCreate 1 1 9 none { rows := [] } longTitleTask).2.1
      = RepoRes.fail (GoError.wrap "failed to create task" pgErrConstraint) := by
  refine ⟨by decide, by decide, by decide⟩

/-- C8: the claim states that the store NotFound propagates to the live
handler and is mapped to 404.  For a well-formed id with no matching
row, the use-case propagates the postgres ErrTaskNotFound sentinel
verbatim, but the handler tests errors.Is against the distinct usecase
ErrTaskNotFound sentinel, which fails, so the endpoint answers 500
rather than 404. -/
theorem c8_notfound_mapped_to_500 :
    (ucGet { rows := [] } "00000000-0000-0000-0000-000000000001").1
      = RepoRes.fail errTaskNotFoundPostgres ∧
    errorsIs errTaskNotFoundPostgres errTaskNotFoundUsecase = false ∧
    getTaskEndpointApp { rows := [] } "00000000-0000-0000-0000-000000000001"
      = HttpOutcome.response 500 := by
  refine ⟨by decide, by decide, by decide⟩

/-- C9: the claim states that the live update handler answers 400 on a
malformed path id without panicking.  With a well-formed body and the
malformed id "not-a-uuid", the handler reaches uuid.MustParse and
panics; Update is indeed not invoked, but no 400 response is
produced. -/
theorem c9_update_handler_panics_on_bad_id :
    updateTaskHandlerApp "not-a-uuid" (some sampleTask) (RepoRes.ok sampleTask)
      = (HttpOutcome.panicking "uuid: Parse: invalid UUID format", none) := by
  rfl

/-- C3: a task with an empty title or a status outside the enumeration
fails Validate, and both Create and Update return that same validation
error with the store state unchanged and no collaborator call
performed (the effect trace is empty). -/
theorem c3_invalid_task_rejected_before_store
    (t : Task) (ucNow repoNow freshId : Nat) (inv : Option GoError) (s : Store)
    (h : t.title = "" ∨ validStatuses.contains t.status = false) :
    ∃ e, t.validate = some e ∧
      ucCreate ucNow repoNow freshId inv s t = (s, RepoRes.fail e, []) ∧
      ucUpdate ucNow repoNow inv s t = (s, RepoRes.fail e, []) := by
  by_cases ht : t.title = ""
  · exact ⟨GoError.fmtErr "title cannot be empty",
      by simp [Task.validate, ht],
      by simp [ucCreate, Task.validate, ht],
      by simp [ucUpdate, Task.validate, ht]⟩
  · have hc : validStatuses.contains t.status = false := h.resolve_left ht
    have hm : t.status ∉ validStatuses := by simpa using hc
    exact ⟨GoError.fmtErr "status must be one of: todo, in_progress, done",
      by simp [Task.validate, ht, hm],
      by simp [ucCreate, Task.validate, ht, hm],
      by simp [ucUpdate, Task.validate, ht, hm]⟩

/-- Witness for C3 at an empty-title task. -/
theorem c3_invalid_task_rejected_before_store_witness :
    ∃ e, Task.validate { sampleTask with title := "" } = some e ∧
      ucCreate 1 2 9 none { rows := [] } { sampleTask with title := "" }
        = ({ rows := [] }, RepoRes.fail e, []) ∧
      ucUpdate 1 2 none { rows := [] } { sampleTask with title := "" }
        = ({ rows := [] }, RepoRes.fail e, []) :=
  c3_invalid_task_rejected_before_store
    { sampleTask with title := "" } 1 2 9 none { rows := [] } (Or.inl rfl)

/-- C5: for a valid task accepted by the store, Create assigns the
freshly generated id exactly when the incoming id is uuid.Nil (and that
id collides with no stored row), preserves a caller-supplied id
otherwise, and the returned task has equal creation and update
timestamps. -/
theorem c5_create_id_assignment_and_timestamps
    (ucNow repoNow freshId : Nat) (inv : Option GoError) (s : Store) (t : Task)
    (hv : t.validate = none) (hlen : t.title.length ≤ 255)
    (hfresh : s.rows.any
      (fun r => r.id == (if t.id = uuidNil then freshId else t.id)) = false) :
    ∃ u, (ucCreate ucNow repoNow freshId inv s t).2.1 = RepoRes.ok u ∧
      (t.id = uuidNil →
        u.id = freshId ∧ s.rows.any (fun r => r.id == u.id) = false) ∧
      (¬ t.id = uuidNil → u.id = t.id) ∧
      u.createdAt = u.updatedAt := by
  refine ⟨_, by rw [ucCreate_success_eq ucNow repoNow freshId inv s t hv hlen hfresh],
    ?_, ?_, rfl⟩
  · intro hid
    refine ⟨by simp [hid], ?_⟩
    simpa [hid] using hfresh
  · intro hid
    simp [hid]

/-- Witness for C5 at an unset-id task against an empty store. -/
theorem c5_create_id_assignment_and_timestamps_witness :
    ∃ u, (ucCreate 3 4 9 none { rows := [] } { sampleTask with id := 0 }).2.1
        = RepoRes.ok u ∧
      (({ sampleTask with id := 0 } : Task).id = uuidNil →
        u.id = 9 ∧
        ({ rows := [] } : Store).rows.any (fun r => r.id == u.id) = false) ∧
      (¬ ({ sampleTask with id := 0 } : Task).id = uuidNil →
        u.id = ({ sampleTask with id := 0 } : Task).id) ∧
      u.createdAt = u.updatedAt :=
  c5_create_id_assignment_and_timestamps 3 4 9 none { rows := [] }
    { sampleTask with id := 0 } (by decide) (by decide) (by decide)

/-- C6: a successful Update of an existing row stores and returns a task
that keeps the id and created_at of the stored row, takes its
updated_at from the time of the update, and takes title, description
and status from the request; every other row is unchanged. -/
theorem c6_update_preserves_id_and_created_at
    (ucNow repoNow : Nat) (inv : Option GoError) (s : Store) (t old : Task)
    (hv : t.validate = none) (hlen : t.title.length ≤ 255)
    (hfind : s.rows.find? (fun r => r.id == t.id) = some old) :
    ∃ u, ucUpdate ucNow repoNow inv s t =
        ({ rows := s.rows.map (fun r => if r.id == t.id then u else r) },
         RepoRes.ok u, [Effect.storeUpdate, Effect.cacheInvalidate]) ∧
      u.id = old.id ∧ u.createdAt = old.createdAt ∧ u.updatedAt = repoNow ∧
      u.title = t.title ∧ u.description = t.description ∧ u.status = t.status :=
  ⟨_, ucUpdate_success_eq ucNow repoNow inv s t old hv hlen hfind,
    rfl, rfl, rfl, rfl, rfl, rfl⟩

/-- Witness for C6 updating the title of the only stored row. -/
theorem c6_update_preserves_id_and_created_at_witness :
    ∃ u, ucUpdate 5 6 none { rows := [sampleRow] } sampleEdit =
        ({ rows := ({ rows := [sampleRow] } : Store).rows.map
            (fun r => if r.id == sampleEdit.id then u else r) },
         RepoRes.ok u, [Effect.storeUpdate, Effect.cacheInvalidate]) ∧
      u.id = sampleRow.id ∧
      u.createdAt = sampleRow.createdAt ∧
      u.updatedAt = 6 ∧
      u.title = sampleEdit.title ∧
      u.description = sampleEdit.description ∧
      u.status = sampleEdit.status :=
  c6_update_preserves_id_and_created_at 5 6 none
    { rows := [sampleRow] } sampleEdit sampleRow
    (by decide) (by decide) (by decide)

/-- C7: after a successful store write, Create, Update and Delete each
invalidate the cache exactly once, and their entire outcome (result,
store and effect trace) is identical whatever the invalidation returns,
so an invalidation failure never fails the call. -/
theorem c7_invalidate_once_and_best_effort :
    (∀ (ucNow repoNow freshId : Nat) (inv inv2 : Option GoError) (s : Store)
        (t : Task),
      Task.validate t = none → t.title.length ≤ 255 →
      s.rows.any
        (fun r => r.id == (if t.id = uuidNil then freshId else t.id)) = false →
      ((ucCreate ucNow repoNow freshId inv s t).2.2.count
          Effect.cacheInvalidate = 1 ∧
       (∃ u, (ucCreate ucNow repoNow freshId inv s t).2.1 = RepoRes.ok u) ∧
       ucCreate ucNow repoNow freshId inv s t
         = ucCreate ucNow repoNow freshId inv2 s t)) ∧
    (∀ (ucNow repoNow : Nat) (inv inv2 : Option GoError) (s : Store)
        (t old : Task),
      Task.validate t = none → t.title.length ≤ 255 →
      s.rows.find? (fun r => r.id == t.id) = some old →
      ((ucUpdate ucNow repoNow inv s t).2.2.count Effect.cacheInvalidate = 1 ∧
       (∃ u, (ucUpdate ucNow repoNow inv s t).2.1 = RepoRes.ok u) ∧
       ucUpdate ucNow repoNow inv s t = ucUpdate ucNow repoNow inv2 s t)) ∧
    (∀ (inv inv2 : Option GoError) (s : Store) (idStr : String) (pid : Nat),
      parseUUID idStr = some pid →
      s.rows.any (fun r => r.id == pid) = true →
      ((ucDelete inv s idStr).2.2.count Effect.cacheInvalidate = 1 ∧
       (ucDelete inv s idStr).2.1 = RepoRes.ok () ∧
       ucDelete inv s idStr = ucDelete inv2 s idStr)) := by
  refine ⟨?_, ?_, ?_⟩
  · intro ucNow repoNow freshId inv inv2 s t hv hlen hfresh
    rw [ucCreate_success_eq ucNow repoNow freshId inv s t hv hlen hfresh,
        ucCreate_success_eq ucNow repoNow freshId inv2 s t hv hlen hfresh]
    exact ⟨rfl, ⟨_, rfl⟩, rfl⟩
  · intro ucNow repoNow inv inv2 s t old hv hlen hfind
    rw [ucUpdate_success_eq ucNow repoNow inv s t old hv hlen hfind,
        ucUpdate_success_eq ucNow repoNow inv2 s t old hv hlen hfind]
    exact ⟨rfl, ⟨_, rfl⟩, rfl⟩
  · intro inv inv2 s idStr pid hp hex
    rw [ucDelete_success_eq inv s idStr pid hp hex,
        ucDelete_success_eq inv2 s idStr pid hp hex]
    exact ⟨rfl, rfl, rfl⟩

/-- Witness for C7: a concrete Create, Update and Delete, each once with
a succeeding and once with a failing invalidation. -/
theorem c7_invalidate_once_and_best_effort_witness :
    ((ucCreate 1 2 9 none { rows := [] } { sampleTask with id := 0 }).2.2.count
        Effect.cacheInvalidate = 1 ∧
     (∃ u, (ucCreate 1 2 9 none { rows := [] }
        { sampleTask with id := 0 }).2.1 = RepoRes.ok u) ∧
     ucCreate 1 2 9 none { rows := [] } { sampleTask with id := 0 }
       = ucCreate 1 2 9 (some (GoError.fmtErr "redis down")) { rows := [] }
           { sampleTask with id := 0 }) ∧
    ((ucUpdate 1 2 none { rows := [sampleTask] } sampleTask).2.2.count
        Effect.cacheInvalidate = 1 ∧
     (∃ u, (ucUpdate 1 2 none { rows := [sampleTask] } sampleTask).2.1
        = RepoRes.ok u) ∧
     ucUpdate 1 2 none { rows := [sampleTask] } sampleTask
       = ucUpdate 1 2 (some (GoError.fmtErr "redis down"))
           { rows := [sampleTask] } sampleTask) ∧
    ((ucDelete none { rows := [sampleTask] }
        "00000000-0000-0000-0000-000000000007").2.2.count
        Effect.cacheInvalidate = 1 ∧
     (ucDelete none { rows := [sampleTask] }
        "00000000-0000-0000-0000-000000000007").2.1 = RepoRes.ok () ∧
     ucDelete none { rows := [sampleTask] }
        "00000000-0000-0000-0000-000000000007"
       = ucDelete (some (GoError.fmtErr "redis down")) { rows := [sampleTask] }
          "00000000-0000-0000-0000-000000000007") :=
  ⟨c7_invalidate_once_and_best_effort.1 1 2 9 none
      (some (GoError.fmtErr "redis down")) { rows := [] }
      { sampleTask with id := 0 } (by decide) (by decide) (by decide),
   c7_invalidate_once_and_best_effort.2.1 1 2 none
      (some (GoError.fmtErr "redis down")) { rows := [sampleTask] }
      sampleTask sampleTask (by decide) (by decide) (by decide),
   c7_invalidate_once_and_best_effort.2.2 none
      (some (GoError.fmtErr "redis down")) { rows := [sampleTask] }
      "00000000-0000-0000-0000-000000000007" 7 (by decide) (by decide)⟩

/-- C10: whenever either HTTP update handler invokes the use-case
Update, the task it passes carries the id parsed from the URL path, and
all remaining fields come from the decoded body: the body-supplied id
is ignored, so an update can only target the task addressed by the
path. -/
theorem c10_update_handlers_use_path_id
    (idStr : String) (body : Option Task) (r : RepoRes Task) (t1 : Task)
    (h : (updateTaskHandlerApp idStr body r).2 = some t1 ∨
         (updateTaskHandlerCtrl idStr body r).2 = some t1) :
    parseUUID idStr = some t1.id ∧
    ∃ b, body = some b ∧ t1 = { b with id := t1.id } := by
  rcases h with h | h
  · unfold updateTaskHandlerApp at h
    cases body with
    | none => simp at h
    | some task =>
      cases hp : parseUUID idStr with
      | none => rw [hp] at h; simp at h
      | some pid =>
        rw [hp] at h
        cases r with
        | ok u =>
          have ht : t1 = { task with id := pid } := by simpa using h.symm
          subst ht
          exact ⟨rfl, task, rfl, rfl⟩
        | fail e =>
          have ht : t1 = { task with id := pid } := by simpa using h.symm
          subst ht
          exact ⟨rfl, task, rfl, rfl⟩
  · unfold updateTaskHandlerCtrl at h
    cases hp : parseUUID idStr with
    | none => rw [hp] at h; simp at h
    | some pid =>
      rw [hp] at h
      cases body with
      | none => simp at h
      | some task =>
        cases hvt : validateTask { task with id := pid } with
        | some e => simp [hvt] at h
        | none =>
          simp only [hvt] at h
          cases r with
          | ok u =>
            have ht : t1 = { task with id := pid } := by simpa using h.symm
            subst ht
            exact ⟨rfl, task, rfl, rfl⟩
          | fail e =>
            have ht : t1 = { task with id := pid } := by simpa using h.symm
            subst ht
            exact ⟨rfl, task, rfl, rfl⟩

/-- Witness for C10: the live handler called with a body whose id is 7
passes the path id 1 to Update. -/
theorem c10_update_handlers_use_path_id_witness :
    parseUUID "00000000-0000-0000-0000-000000000001"
      = some ({ sampleTask with id := 1 } : Task).id ∧
    ∃ b, (some sampleTask : Option Task) = some b ∧
      ({ sampleTask with id := 1 } : Task)
        = { b with id := ({ sampleTask with id := 1 } : Task).id } :=
  c10_update_handlers_use_path_id "00000000-0000-0000-0000-000000000001"
    (some sampleTask) (RepoRes.ok sampleTask) { sampleTask with id := 1 }
    (Or.inl (by decide))

end TaskService
